import Mathlib

/-!
Verification of the reactive pipeline-execution core of `xdsl/interactive/app.py`
(the `xdsl-gui` interactive pass-pipeline explorer).

The source file under verification is `src/xdsl/interactive/app.py`.  Its core is
the class `InputApp`, whose state consists of the input text area, the selected
pass pipeline, the reactive `current_module` result, the output text area, the
selected-passes query label, and the system clipboard.  External collaborators
(`MLContext`, `Parser`, `PipelinePass`, `Printer`, `get_all_dialects`,
`get_all_passes`) live elsewhere in the repository; they are modelled from the
specification's "Compiler Services" contract as an explicit `Services` value.
-/

namespace XdslGui

/-- The in-memory IR module (glossary: "the structured in-memory form of a parsed
program, printable back to text").  Its internal structure is irrelevant to the
core; we carry an abstract payload string. -/
structure ModuleOp where
  payload : String
deriving DecidableEq, Repr

/-- An error value (`Exception` in the Python source): a `ParseError` or an
`ApplicationError`, carried as a renderable message. -/
structure Err where
  msg : String
deriving DecidableEq, Repr

/-- Modelled from the spec: the compilation context / registry ("registry of
available passes and dialects/vocabulary").  `MLContext(True)` in the source
constructs a context allowing unregistered dialects with no dialect loaded. -/
structure MLContext where
  allow_unregistered : Bool
  dialects : List String
deriving DecidableEq, Repr

/-- Constructing `MLContext(True)`: a brand-new context with no dialect loaded. -/
def MLContext.new (allow_unregistered : Bool) : MLContext :=
  { allow_unregistered := allow_unregistered, dialects := [] }

/-- Modelled from the spec: `ctx.load_dialect(dialect)` registers one dialect in
the context's vocabulary. -/
def MLContext.load_dialect (ctx : MLContext) (d : String) : MLContext :=
  { ctx with dialects := ctx.dialects ++ [d] }

/-- A value handed to the printer: `Printer.print` in the source accepts either a
module or an error value ("print(value) -> text, accepting either a module or an
error value"). -/
inductive PValue where
  | mod (m : ModuleOp)
  | err (e : Err)
deriving DecidableEq, Repr

/-- Modelled from the spec: an instantiated pass ("factory() -> passInstance;
passInstance.apply(module) -> ok | ApplicationError").  Application happens in a
context and either transforms the module in place (modelled as returning the new
module) or signals a failure. -/
structure PassInstance where
  apply : MLContext → ModuleOp → Except Err ModuleOp

/-- A registered pass: `type[ModulePass]` in the source.  It has a `name` used in
queries and a factory `p()` producing a fresh instance. -/
structure ModulePassType where
  name : String
  factory : Unit → PassInstance

/-- Modelled from the spec: the external Compiler Services collaborator — dialect
registry, sorted pass registry, parser and printer.  It is read-only and passed
by reference into the core. -/
structure Services where
  get_all_dialects : List String
  get_all_passes : List ModulePassType
  parse : MLContext → String → Except Err ModuleOp
  printV : PValue → String

/-- The reactive variable `current_module : ModuleOp | Exception | None` of the
source, as an explicit tagged variant (the spec's `ExecutionResult`):
`Empty` (`None`) | `Module` (`ModuleOp`) | `Failure` (`Exception`). -/
inductive ExecutionResult where
  | empty
  | module (m : ModuleOp)
  | failure (e : Err)
deriving DecidableEq, Repr

/-- The state of the `InputApp` session: the input text area's text, the selected
pass pipeline, the reactive result, the output text area's text, the
selected-passes query label, and the clipboard handed to `pyclip_copy`. -/
structure InputApp where
  input_text : String
  pass_pipeline : List ModulePassType
  current_module : ExecutionResult
  output_text : String
  selected_query_label : String
  clipboard : String

/-- Modelled from the spec: `PipelinePass([...]).apply(ctx, module)` applies each
instantiated pass to the module in list order; if a pass application signals a
failure, the remaining passes are aborted and the failure propagates. -/
def PipelinePass.apply (ctx : MLContext) (passes : List PassInstance)
    (m : ModuleOp) : Except Err ModuleOp :=
  match passes with
  | [] => .ok m
  | p :: rest =>
    match p.apply ctx m with
    | .ok m1 => PipelinePass.apply ctx rest m1
    | .error e => .error e

/-- Lexicographic comparison of two character lists by character code: the
string order Python's `sorted(...)` uses on the `(name, pass)` tuples' first
components (kept structurally recursive so that it evaluates). -/
def charsLt : List Char → List Char → Bool
  | _, [] => false
  | [], _ :: _ => true
  | c :: cs, d :: ds =>
    if c.toNat < d.toNat then true
    else if d.toNat < c.toNat then false
    else charsLt cs ds

/-- Lexicographic order on pass names. -/
def nameLt (a b : String) : Bool :=
  charsLt a.data b.data

/-- Inserting one `(name, pass)` pair into a name-sorted list, keeping it
sorted: one step of the sort performed by `sorted(...)` at module load. -/
def insertByName (x : String × ModulePassType) :
    List (String × ModulePassType) → List (String × ModulePassType)
  | [] => [x]
  | y :: ys => if nameLt x.1 y.1 then x :: y :: ys else y :: insertByName x ys

/-- The source's `ALL_PASSES = tuple(sorted((p.name, p) for p in
get_all_passes()))`: the module-level registry of selectable passes, sorted by
name (pass names are distinct, so sorting the `(name, pass)` tuples is sorting
by name; we use an insertion sort, which agrees with Python's `sorted` on
distinct keys). -/
def ALL_PASSES (sv : Services) : List (String × ModulePassType) :=
  (sv.get_all_passes.map (fun p => (p.name, p))).foldr insertByName []

/-- The `Printer(output_stream).print(value)` idiom: the printer renders the
value (a module or an error) onto the stream; `getvalue()` of a fresh
`StringIO()` stream is the empty string followed by what was printed. -/
def Printer.print_to (sv : Services) (stream : String) (v : PValue) : String :=
  stream ++ sv.printV v

/-- The body of `watch_current_module`: recompute the output text area from the
reactive `current_module`.  `None` renders the sentinel `"No input"`; an
exception and a module are both rendered by `Printer(output_stream).print(...)`
into a fresh `StringIO()` stream. -/
def watch_current_module (sv : Services) (app : InputApp) : InputApp :=
  let output_text :=
    match app.current_module with
    | .empty => "No input"
    | .failure e => Printer.print_to sv "" (.err e)
    | .module m => Printer.print_to sv "" (.mod m)
  { app with output_text := output_text }

/-- Assigning the reactive variable `current_module`: the reactive framework
synchronously runs `watch_current_module` on the assignment. -/
def set_current_module (sv : Services) (app : InputApp) (v : ExecutionResult) :
    InputApp :=
  watch_current_module sv { app with current_module := v }

/-- The body of `update_current_module`: if the input text is empty, set the
result to `None`; otherwise build a fresh `MLContext(True)`, load every dialect
of `get_all_dialects()`, parse the input, instantiate `p()` for each selected
pass in order, and run `PipelinePass.apply`; any raised error is caught and
stored as the result. -/
def update_current_module (sv : Services) (app : InputApp) : InputApp :=
  let input_text := app.input_text
  if input_text = "" then
    set_current_module sv app .empty
  else
    let ctx := sv.get_all_dialects.foldl MLContext.load_dialect (MLContext.new true)
    set_current_module sv app
      (match sv.parse ctx input_text with
       | .error e => .failure e
       | .ok mo =>
         match PipelinePass.apply ctx (app.pass_pipeline.map (fun p => p.factory ())) mo with
         | .ok m1 => .module m1
         | .error e => .failure e)

/-- The body of `watch_pass_pipeline`: rebuild the selected-passes label from the
pipeline (`"\n" + (", " + "\n").join(p.name ...)` interpolated into
`f"xdsl-opt -p {new_passes}"`) and then rerun `update_current_module`. -/
def watch_pass_pipeline (sv : Services) (app : InputApp) : InputApp :=
  let new_passes :=
    "\n" ++ String.intercalate (", " ++ "\n") (app.pass_pipeline.map (fun p => p.name))
  let new_label := "xdsl-opt -p " ++ new_passes
  update_current_module sv { app with selected_query_label := new_label }

/-- Assigning the reactive variable `pass_pipeline`: the reactive framework
synchronously runs `watch_pass_pipeline` on the assignment. -/
def set_pass_pipeline (sv : Services) (app : InputApp)
    (pp : List ModulePassType) : InputApp :=
  watch_pass_pipeline sv { app with pass_pipeline := pp }

/-- The body of `update_pass_pipeline`: look the selected name up in
`ALL_PASSES` (first match wins, then `return`) and append its pass to the
pipeline via `tuple((*self.pass_pipeline, value))`. -/
def update_pass_pipeline (sv : Services) (app : InputApp)
    (selected_pass : String) : InputApp :=
  match (ALL_PASSES sv).find? (fun nv => nv.1 == selected_pass) with
  | some nv => set_pass_pipeline sv app (app.pass_pipeline ++ [nv.2])
  | none => app

/-- The body of `clear_passes`: `self.pass_pipeline = ()`. -/
def clear_passes (sv : Services) (app : InputApp) : InputApp :=
  set_pass_pipeline sv app []

/-- The body of `copy_query`: recompute the query string from the pipeline
(independently of the label) and hand it to the clipboard via `pyclip_copy`. -/
def copy_query (app : InputApp) : InputApp :=
  let selected_passes :=
    "\n" ++ String.intercalate (", " ++ "\n") (app.pass_pipeline.map (fun p => p.name))
  let query := "xdsl-opt -p " ++ selected_passes
  { app with clipboard := query }

/-- The body of `copy_output`: hand the output text area's text to the
clipboard. -/
def copy_output (app : InputApp) : InputApp :=
  { app with clipboard := app.output_text }

/-- The body of `clear_input`: `self.input_text_area.clear()`, whose
`TextArea.Changed` event reruns `update_current_module` on the emptied text. -/
def clear_input (sv : Services) (app : InputApp) : InputApp :=
  update_current_module sv { app with input_text := "" }

/-- The body of `@on(TextArea.Changed, "#input")`: a user edit replaces the
input text and reruns `update_current_module`. -/
def edit_source (sv : Services) (app : InputApp) (text : String) : InputApp :=
  update_current_module sv { app with input_text := text }

/-- The six user actions the presentation layer maps onto the core. -/
inductive Event where
  | editSource (text : String)
  | selectPass (name : String)
  | clearPassesBtn
  | clearInputBtn
  | copyOutputBtn
  | copyQueryBtn

/-- The reactive scheduler: each user event is handled synchronously and in full
before the next event is accepted. -/
def step (sv : Services) (app : InputApp) : Event → InputApp
  | .editSource t => edit_source sv app t
  | .selectPass n => update_pass_pipeline sv app n
  | .clearPassesBtn => clear_passes sv app
  | .clearInputBtn => clear_input sv app
  | .copyOutputBtn => copy_output app
  | .copyQueryBtn => copy_query app

/-- Running a sequence of user events from a state. -/
def run (sv : Services) (app : InputApp) (evs : List Event) : InputApp :=
  evs.foldl (step sv) app

/-- The value `update_current_module` assigns to `current_module`, factored out
as a pure function of the two inputs it reads (`input_text` and
`pass_pipeline`).  This is exactly the computation of the `try` block of the
source, with raised errors as the `failure` arm. -/
def executeCore (sv : Services) (source : String)
    (pipeline : List ModulePassType) : ExecutionResult :=
  if source = "" then
    .empty
  else
    let ctx := sv.get_all_dialects.foldl MLContext.load_dialect (MLContext.new true)
    match sv.parse ctx source with
    | .error e => .failure e
    | .ok mo =>
      match PipelinePass.apply ctx (pipeline.map (fun p => p.factory ())) mo with
      | .ok m1 => .module m1
      | .error e => .failure e

/-- Modelled from the spec: "For each PassIdentifier in `pipeline`, in list
order, instantiate a fresh, stateless-between-runs pass instance and apply it
to the module in place.  If a pass application signals a failure, abort the
remaining passes and return `Failure(error)`."  One fresh `factory ()` call per
pipeline entry, interleaved with the applications. -/
def applyPipelineSpec (ctx : MLContext) :
    List ModulePassType → ModuleOp → Except Err ModuleOp
  | [], m => .ok m
  | p :: rest, m =>
    match (p.factory ()).apply ctx m with
    | .ok m1 => applyPipelineSpec ctx rest m1
    | .error e => .error e

/-- Modelled from the spec: the §4.1 Pipeline Executor contract
`execute(source, pipeline, services) -> ExecutionResult` — empty source gives
`Empty` without parsing; otherwise a fresh compilation context is obtained from
the services with the full dialect load (nothing carried over from any prior
call); parse failure gives `Failure(parseError)` with no passes run; otherwise
the passes are instantiated fresh and applied in list order, aborting on the
first failure; all-success gives `Module(finalModule)`. -/
def executeSpec (sv : Services) (source : String)
    (pipeline : List ModulePassType) : ExecutionResult :=
  if source = "" then
    .empty
  else
    let ctx := sv.get_all_dialects.foldl MLContext.load_dialect (MLContext.new true)
    match sv.parse ctx source with
    | .error e => .failure e
    | .ok m =>
      match applyPipelineSpec ctx pipeline m with
      | .ok m1 => .module m1
      | .error e => .failure e

/-! Concrete fixtures used by the witness theorems. -/

/-- A concrete pass named `"a"` that appends `"+a"` to the module payload. -/
def passOkA : ModulePassType :=
  { name := "a"
    factory := fun _ => { apply := fun _ m => .ok { payload := m.payload ++ "+a" } } }

/-- A concrete pass named `"b"` that appends `"+b"` to the module payload. -/
def passOkB : ModulePassType :=
  { name := "b"
    factory := fun _ => { apply := fun _ m => .ok { payload := m.payload ++ "+b" } } }

/-- A concrete pass named `"f"` whose application always fails with `"boom"`. -/
def passFail : ModulePassType :=
  { name := "f"
    factory := fun _ => { apply := fun _ _ => .error { msg := "boom" } } }

/-- Concrete compiler services: one dialect, the three test passes, a parser
that rejects exactly the text `"bad"`, and a printer tagging its argument. -/
def svTest : Services :=
  { get_all_dialects := ["builtin"]
    get_all_passes := [passOkA, passOkB, passFail]
    parse := fun _ s =>
      if s = "bad" then .error { msg := "parse error" } else .ok { payload := s }
    printV := fun v =>
      match v with
      | .mod m => "mod:" ++ m.payload
      | .err e => "err:" ++ e.msg }

/-- A concrete session state with source text `"x"` and no selected pass. -/
def app0 : InputApp :=
  { input_text := "x"
    pass_pipeline := []
    current_module := .empty
    output_text := ""
    selected_query_label := ""
    clipboard := "" }

/-- A concrete event sequence that ends with the same source text and pipeline
as `app0`: select pass `"a"`, clear the passes, edit the source away and back. -/
def evsW : List Event :=
  [.selectPass "a", .clearPassesBtn, .editSource "other", .editSource "x"]

/-! Helper lemmas about the state transformers. -/

theorem set_current_module_current (sv : Services) (app : InputApp)
    (v : ExecutionResult) : (set_current_module sv app v).current_module = v :=
  rfl

theorem set_current_module_output (sv : Services) (app : InputApp)
    (v : ExecutionResult) :
    (set_current_module sv app v).output_text
      = match v with
        | .empty => "No input"
        | .failure e => sv.printV (.err e)
        | .module m => sv.printV (.mod m) := by
  cases v <;> rfl

theorem update_current_module_eq (sv : Services) (app : InputApp) :
    update_current_module sv app
      = set_current_module sv app (executeCore sv app.input_text app.pass_pipeline) := by
  unfold update_current_module executeCore
  by_cases h : app.input_text = "" <;> simp [h]

theorem update_current_module_current (sv : Services) (app : InputApp) :
    (update_current_module sv app).current_module
      = executeCore sv app.input_text app.pass_pipeline := by
  rw [update_current_module_eq]
  rfl

theorem update_current_module_pipeline (sv : Services) (app : InputApp) :
    (update_current_module sv app).pass_pipeline = app.pass_pipeline := by
  rw [update_current_module_eq]
  rfl

theorem update_current_module_label (sv : Services) (app : InputApp) :
    (update_current_module sv app).selected_query_label
      = app.selected_query_label := by
  rw [update_current_module_eq]
  rfl

theorem watch_pass_pipeline_label (sv : Services) (app : InputApp) :
    (watch_pass_pipeline sv app).selected_query_label
      = "xdsl-opt -p " ++ ("\n" ++ String.intercalate (", " ++ "\n")
          (app.pass_pipeline.map (fun p => p.name))) := by
  simp only [watch_pass_pipeline, update_current_module_label]

theorem watch_pass_pipeline_pipeline (sv : Services) (app : InputApp) :
    (watch_pass_pipeline sv app).pass_pipeline = app.pass_pipeline := by
  simp only [watch_pass_pipeline, update_current_module_pipeline]

theorem set_pass_pipeline_pipeline (sv : Services) (app : InputApp)
    (pp : List ModulePassType) : (set_pass_pipeline sv app pp).pass_pipeline = pp := by
  simp only [set_pass_pipeline, watch_pass_pipeline_pipeline]

theorem pipelinePass_apply_append (ctx : MLContext) (l1 l2 : List PassInstance)
    (m : ModuleOp) :
    PipelinePass.apply ctx (l1 ++ l2) m
      = match PipelinePass.apply ctx l1 m with
        | .ok m1 => PipelinePass.apply ctx l2 m1
        | .error e => .error e := by
  induction l1 generalizing m with
  | nil => rfl
  | cons p rest ih =>
    simp only [List.cons_append, PipelinePass.apply]
    cases p.apply ctx m with
    | ok m1 => exact ih m1
    | error e => rfl

theorem pipelinePass_apply_map_factory (ctx : MLContext)
    (pipeline : List ModulePassType) (m : ModuleOp) :
    PipelinePass.apply ctx (pipeline.map (fun p => p.factory ())) m
      = applyPipelineSpec ctx pipeline m := by
  induction pipeline generalizing m with
  | nil => rfl
  | cons p rest ih =>
    simp only [List.map_cons, PipelinePass.apply, applyPipelineSpec]
    cases (p.factory ()).apply ctx m with
    | ok m1 => exact ih m1
    | error e => rfl

theorem executeCore_empty_iff (sv : Services) (s : String)
    (pp : List ModulePassType) : executeCore sv s pp = .empty ↔ s = "" := by
  by_cases h : s = ""
  · simp [executeCore, h]
  · simp only [executeCore, if_neg h]
    constructor
    · intro hc
      split at hc
      · exact ExecutionResult.noConfusion hc
      · split at hc <;> exact ExecutionResult.noConfusion hc
    · intro hc
      exact absurd hc h

/-! The claims. -/

/-- C1: two invocations of `update_current_module` with identical source text
and identical pass pipeline produce identical `ExecutionResult` values, even
when an arbitrary sequence of other user events (each triggering its own
recomputation) happens between the two invocations. -/
theorem execute_deterministic (sv : Services) (app : InputApp) (evs : List Event)
    (h1 : (run sv (update_current_module sv app) evs).input_text = app.input_text)
    (h2 : (run sv (update_current_module sv app) evs).pass_pipeline = app.pass_pipeline) :
    (update_current_module sv (run sv (update_current_module sv app) evs)).current_module
      = (update_current_module sv app).current_module := by
  rw [update_current_module_current, update_current_module_current, h1, h2]

/-- Witness for C1: from `app0`, select pass `"a"`, clear the passes, edit the
source away and back; the recomputed result is identical to the first one. -/
theorem execute_deterministic_witness :
    (update_current_module svTest (run svTest (update_current_module svTest app0) evsW)).current_module
      = (update_current_module svTest app0).current_module :=
  execute_deterministic svTest app0 evsW (by rfl) (by rfl)

/-- C2: if, after a successful parse, some pass application fails (the
instantiated pipeline splits as `l1 ++ p :: l2` with `l1` succeeding and `p`
failing), then `update_current_module` returns `Failure e` — for EVERY possible
suffix `l2`, so the remaining passes are aborted — and the rendered output is
the error text, never a module reflecting `l1`'s partial transformation.  The
result is the ordinary `failure` arm of `ExecutionResult` (the `except` clause
of the source converts every raised error), so no raw fault escapes the
executor boundary. -/
theorem pass_failure_aborts (sv : Services) (app : InputApp) (ctx : MLContext)
    (m0 m1 : ModuleOp) (e : Err) (l1 : List PassInstance) (p : PassInstance)
    (l2 : List PassInstance)
    (hne : app.input_text ≠ "")
    (hctx : ctx = sv.get_all_dialects.foldl MLContext.load_dialect (MLContext.new true))
    (hparse : sv.parse ctx app.input_text = .ok m0)
    (hmap : app.pass_pipeline.map (fun q => q.factory ()) = l1 ++ p :: l2)
    (hpre : PipelinePass.apply ctx l1 m0 = .ok m1)
    (hfail : p.apply ctx m1 = .error e) :
    (update_current_module sv app).current_module = .failure e ∧
    (update_current_module sv app).output_text = sv.printV (.err e) := by
  subst hctx
  have hrun : PipelinePass.apply
      (sv.get_all_dialects.foldl MLContext.load_dialect (MLContext.new true))
      (app.pass_pipeline.map (fun q => q.factory ())) m0 = .error e := by
    rw [hmap, pipelinePass_apply_append, hpre]
    simp only [PipelinePass.apply, hfail]
  have hcore : executeCore sv app.input_text app.pass_pipeline = .failure e := by
    simp only [executeCore, if_neg hne, hparse, hrun]
  constructor
  · rw [update_current_module_current, hcore]
  · rw [update_current_module_eq, hcore]
    rfl

/-- Witness for C2: three passes `[a, f, b]` where `f` (the second) fails with
`"boom"`; the result is `Failure` and the output is the printed error. -/
theorem pass_failure_aborts_witness :
    (update_current_module svTest { app0 with pass_pipeline := [passOkA, passFail, passOkB] }).current_module
      = .failure ⟨"boom"⟩ ∧
    (update_current_module svTest { app0 with pass_pipeline := [passOkA, passFail, passOkB] }).output_text
      = svTest.printV (.err ⟨"boom"⟩) :=
  pass_failure_aborts svTest { app0 with pass_pipeline := [passOkA, passFail, passOkB] }
    (svTest.get_all_dialects.foldl MLContext.load_dialect (MLContext.new true))
    ⟨"x"⟩ ⟨"x+a"⟩ ⟨"boom"⟩ [passOkA.factory ()] (passFail.factory ())
    [passOkB.factory ()] (by decide) rfl rfl rfl rfl rfl

/-- C3: the result of `update_current_module` is `Empty` if and only if the
source text is empty, independent of the pipeline and of the rest of the state;
moreover, when the source text is empty the parser is never invoked — replacing
the parser by ANY other function leaves the whole resulting state unchanged. -/
theorem empty_iff_empty_source (sv : Services) (app : InputApp) :
    ((update_current_module sv app).current_module = .empty ↔ app.input_text = "") ∧
    (app.input_text = "" → ∀ pf,
      update_current_module { sv with parse := pf } app = update_current_module sv app) := by
  constructor
  · rw [update_current_module_current]
    exact executeCore_empty_iff sv app.input_text app.pass_pipeline
  · intro h pf
    simp [update_current_module, h, set_current_module, watch_current_module]

/-- Witness for C3: with empty source text the result is `Empty`, and swapping
in a parser that always fails changes nothing. -/
theorem empty_iff_empty_source_witness :
    ((update_current_module svTest { app0 with input_text := "" }).current_module = .empty
      ↔ ({ app0 with input_text := "" } : InputApp).input_text = "") ∧
    update_current_module { svTest with parse := fun _ _ => .error ⟨"never"⟩ }
        { app0 with input_text := "" }
      = update_current_module svTest { app0 with input_text := "" } :=
  ⟨(empty_iff_empty_source svTest { app0 with input_text := "" }).1,
   (empty_iff_empty_source svTest { app0 with input_text := "" }).2 rfl
     (fun _ _ => .error ⟨"never"⟩)⟩

/-- C4: on non-empty source text whose parse fails, `update_current_module`
returns `Failure(parseError)` immediately, and the result is the same for EVERY
pipeline — no pass is instantiated or applied (in the source, `parse_module()`
raises before the pass-instantiation list comprehension is evaluated). -/
theorem parse_failure_short_circuits (sv : Services) (app : InputApp)
    (ctx : MLContext) (e : Err)
    (hne : app.input_text ≠ "")
    (hctx : ctx = sv.get_all_dialects.foldl MLContext.load_dialect (MLContext.new true))
    (hparse : sv.parse ctx app.input_text = .error e) :
    (update_current_module sv app).current_module = .failure e ∧
    ∀ pp, (update_current_module sv { app with pass_pipeline := pp }).current_module
      = .failure e := by
  subst hctx
  have key : ∀ pp, executeCore sv app.input_text pp = .failure e := by
    intro pp
    simp only [executeCore, if_neg hne, hparse]
  refine ⟨?_, fun pp => ?_⟩
  · rw [update_current_module_current]
    exact key _
  · rw [update_current_module_current]
    exact key pp

/-- Witness for C4: the source `"bad"` is rejected by the parser; the result is
the parse failure, with or without a selected pass. -/
theorem parse_failure_short_circuits_witness :
    (update_current_module svTest { app0 with input_text := "bad" }).current_module
      = .failure ⟨"parse error"⟩ ∧
    (update_current_module svTest
        { { app0 with input_text := "bad" } with pass_pipeline := [passOkA] }).current_module
      = .failure ⟨"parse error"⟩ :=
  ⟨(parse_failure_short_circuits svTest { app0 with input_text := "bad" }
      (svTest.get_all_dialects.foldl MLContext.load_dialect (MLContext.new true))
      ⟨"parse error"⟩ (by decide) rfl rfl).1,
   (parse_failure_short_circuits svTest { app0 with input_text := "bad" }
      (svTest.get_all_dialects.foldl MLContext.load_dialect (MLContext.new true))
      ⟨"parse error"⟩ (by decide) rfl rfl).2 [passOkA]⟩

/-- C5: `update_current_module` refines the spec's Pipeline Executor contract:
on ANY session state, the computed result equals `executeSpec` applied to just
the current source text and pipeline.  `executeSpec` builds its compilation
context freshly from the services alone (full dialect load, nothing carried
over from any prior call — note the session state carries no context at all)
and instantiates one fresh pass instance per pipeline entry, in list order,
interleaved with the in-place applications. -/
theorem executor_refines_spec (sv : Services) (app : InputApp) :
    (update_current_module sv app).current_module
      = executeSpec sv app.input_text app.pass_pipeline := by
  rw [update_current_module_current]
  unfold executeCore executeSpec
  by_cases h : app.input_text = ""
  · simp [h]
  · simp only [if_neg h, pipelinePass_apply_map_factory]

/-- C6: if the source text is non-empty and parses successfully, executing with
the empty pipeline returns `Module(m)` where `m` is exactly the freshly parsed
module, unmodified.  (Empty source never reaches the parser at all: see C3.) -/
theorem identity_pipeline (sv : Services) (app : InputApp) (ctx : MLContext)
    (m : ModuleOp)
    (hne : app.input_text ≠ "")
    (hpp : app.pass_pipeline = [])
    (hctx : ctx = sv.get_all_dialects.foldl MLContext.load_dialect (MLContext.new true))
    (hparse : sv.parse ctx app.input_text = .ok m) :
    (update_current_module sv app).current_module = .module m := by
  subst hctx
  rw [update_current_module_current]
  simp only [executeCore, if_neg hne, hparse, hpp, List.map_nil, PipelinePass.apply]

/-- Witness for C6: source `"x"` parses to the module with payload `"x"`, and
with no selected pass the result is exactly that module. -/
theorem identity_pipeline_witness :
    (update_current_module svTest app0).current_module = .module ⟨"x"⟩ :=
  identity_pipeline svTest app0
    (svTest.get_all_dialects.foldl MLContext.load_dialect (MLContext.new true))
    ⟨"x"⟩ (by decide) rfl rfl rfl

/-- C7: `watch_current_module` renders `Empty` as the fixed sentinel
`"No input"`, renders `Failure e` as the printer's rendering of the error
value, and renders `Module m` as the printer's rendering of the module — the
failure and module arms go through the same `Printer(...).print` routine
(`Printer.print_to sv` applied to a fresh stream, i.e. the single `sv.printV`
channel), not a separate error-formatting path. -/
theorem render_output_cases (sv : Services) (app : InputApp) :
    (app.current_module = .empty →
      (watch_current_module sv app).output_text = "No input") ∧
    (∀ e, app.current_module = .failure e →
      (watch_current_module sv app).output_text = sv.printV (.err e)) ∧
    (∀ m, app.current_module = .module m →
      (watch_current_module sv app).output_text = sv.printV (.mod m)) := by
  refine ⟨fun h => ?_, fun e h => ?_, fun m h => ?_⟩ <;>
    simp [watch_current_module, h, Printer.print_to]

/-- Witness for C7: the three arms evaluated on concrete states. -/
theorem render_output_cases_witness :
    (watch_current_module svTest { app0 with current_module := .empty }).output_text
      = "No input" ∧
    (watch_current_module svTest { app0 with current_module := .failure ⟨"boom"⟩ }).output_text
      = svTest.printV (.err ⟨"boom"⟩) ∧
    (watch_current_module svTest { app0 with current_module := .module ⟨"x"⟩ }).output_text
      = svTest.printV (.mod ⟨"x"⟩) :=
  ⟨(render_output_cases svTest { app0 with current_module := .empty }).1 rfl,
   (render_output_cases svTest { app0 with current_module := .failure ⟨"boom"⟩ }).2.1
     ⟨"boom"⟩ rfl,
   (render_output_cases svTest { app0 with current_module := .module ⟨"x"⟩ }).2.2
     ⟨"x"⟩ rfl⟩

/-- C8 counterexample: the claim pins the invocation template to the exact
string `"xdsl-opt -p "` followed by the pass names joined by one fixed
separator.  Joining the single-element name list `["a"]` with ANY separator
yields `"a"`, so the claim forces the label `"xdsl-opt -p a"` for the pipeline
`[passOkA]`; the actual label is `"xdsl-opt -p \na"` — the f-string interpolates
`new_passes`, which always begins with a newline. -/
theorem render_query_template_counterexample :
    (watch_pass_pipeline svTest { app0 with pass_pipeline := [passOkA] }).selected_query_label
      ≠ "xdsl-opt -p " ++ "a" := by
  decide

/-- C8 amended: the label is the fixed template `"xdsl-opt -p \n"` (the
template of the claim plus the newline that precedes the first name) followed
by the pass names joined by the fixed separator `", \n"`, in pipeline order,
preserving duplicates exactly as stored. -/
theorem render_query_amended (sv : Services) (app : InputApp) :
    (watch_pass_pipeline sv app).selected_query_label
      = "xdsl-opt -p \n"
        ++ String.intercalate ", \n" (app.pass_pipeline.map (fun p => p.name)) := by
  rw [watch_pass_pipeline_label]
  rfl

/-- C9: selecting a pass whose name resolves in `ALL_PASSES` appends exactly
that one pass at the end of the pipeline, preserving all prior entries (so
appending an already-present identifier legally yields a duplicate entry), and
`clear_passes` resets the pipeline to empty regardless of prior contents. -/
theorem append_and_clear_pipeline (sv : Services) (app : InputApp)
    (name : String) (nv : String × ModulePassType) :
    ((ALL_PASSES sv).find? (fun x => x.1 == name) = some nv →
      (update_pass_pipeline sv app name).pass_pipeline
        = app.pass_pipeline ++ [nv.2]) ∧
    (clear_passes sv app).pass_pipeline = [] := by
  constructor
  · intro h
    unfold update_pass_pipeline
    rw [h]
    exact set_pass_pipeline_pipeline sv app (app.pass_pipeline ++ [nv.2])
  · exact set_pass_pipeline_pipeline sv app []

/-- Witness for C9: selecting `"b"` appends `passOkB`; clearing resets to
empty. -/
theorem append_and_clear_pipeline_witness :
    (update_pass_pipeline svTest app0 "b").pass_pipeline
      = app0.pass_pipeline ++ [passOkB] ∧
    (clear_passes svTest app0).pass_pipeline = [] :=
  ⟨(append_and_clear_pipeline svTest app0 "b" ("b", passOkB)).1 (by rfl),
   (append_and_clear_pipeline svTest app0 "b" ("b", passOkB)).2⟩

/-- C10: for every pipeline, the query string `copy_query` hands to the
clipboard is exactly the query string `watch_pass_pipeline` displays in the
selected-passes label, although the two strings are computed by two independent
code paths. -/
theorem copy_query_matches_label (sv : Services) (app : InputApp) :
    (copy_query app).clipboard
      = (watch_pass_pipeline sv app).selected_query_label := by
  rw [watch_pass_pipeline_label]
  rfl

end XdslGui
